import Mathlib

/-!
Shallow embedding of `sonic_platform/psu.py` (Celestica E1031 platform PSU driver)
and verification of its specification claims.

The filesystem is modelled as an abstract state `FS`: `walk d` is the sequence of
`(dirpath, files)` pairs that `os.walk(d)` yields (the unused `dirnames` component is
omitted), and `content p` is the trimmed text content of the file at path `p`, or
`none` when no such file exists (absent or unreadable).  Python floats are modelled
as exact rationals (every number the module manipulates is a parsed decimal literal
divided by a power of ten, so no binary rounding is observable in the model).
A Python method that can raise an uncaught exception is modelled with `Except Unit`,
where `.error ()` stands for the raised exception.
-/

namespace E1031

instance {ε α : Type} [DecidableEq ε] [DecidableEq α] : DecidableEq (Except ε α) := fun a b =>
  match a, b with
  | .error x, .error y =>
      if h : x = y then .isTrue (by rw [h])
      else .isFalse (fun hc => h (Except.error.inj hc))
  | .ok x, .ok y =>
      if h : x = y then .isTrue (by rw [h])
      else .isFalse (fun hc => h (Except.ok.inj hc))
  | .error _, .ok _ => .isFalse (fun hc => Except.noConfusion hc)
  | .ok _, .error _ => .isFalse (fun hc => Except.noConfusion hc)

/-- Abstract filesystem state: the `os.walk` enumeration and per-path file content. -/
structure FS where
  walk : String → List (String × List String)
  content : String → Option String

/-- Modelled from the spec: the generic file-reading helper `Common.read_txt_file`
(module `sonic_platform.common`, an external collaborator not present in the sources).
Per the spec it "opens a path and returns trimmed text or a default" and "must not
raise on missing files, returning an empty/default value instead". -/
def read_txt_file (fs : FS) (file_path : String) : String :=
  (fs.content file_path).getD ""

/-- Python `s.startswith(pre)`. -/
def startswith (s pre : String) : Bool :=
  pre.toList.isPrefixOf s.toList

/-- Substring occurrence on character lists (Python `sub in hay` for strings). -/
def sublist (sub : List Char) : List Char → Bool
  | [] => sub.isEmpty
  | c :: t => sub.isPrefixOf (c :: t) || sublist sub t

/-- Python `sub in hay` for strings. -/
def pyInStr (sub hay : String) : Bool :=
  sublist sub.toList hay.toList

/-- posix `os.path.join` restricted to two components, as used by the module. -/
def pathJoin (a b : String) : String :=
  if b.toList.head? = some '/' then b
  else if a.toList = [] ∨ a.toList.getLast? = some '/' then a ++ b
  else a ++ "/" ++ b

/-- posix `os.path.basename`: everything after the last slash. -/
def basename (p : String) : String :=
  String.mk ((p.toList.reverse.takeWhile (fun c => c ≠ '/')).reverse)

/-- posix `os.path.dirname`: everything before the last slash, with trailing slashes
stripped unless the head is empty or consists solely of slashes. -/
def dirname (p : String) : String :=
  let head := (p.toList.reverse.dropWhile (fun c => c ≠ '/')).reverse
  if !head.isEmpty && head.any (fun c => c ≠ '/') then
    String.mk ((head.reverse.dropWhile (fun c => c = '/')).reverse)
  else String.mk head

/-- Numeric value of a list of decimal digit characters (most significant first). -/
def digitsVal (l : List Char) : ℕ :=
  l.foldl (fun a c => a * 10 + (c.toNat - ('0').toNat)) 0

/-- Python `float(s)` on an (already trimmed) unsigned plain decimal literal:
digits, optionally followed by a point and digits, at least one digit in total.
`none` models the `ValueError` raised on any other content. -/
def pyFloatCore (l : List Char) : Option ℚ :=
  let ip := l.takeWhile Char.isDigit
  match l.dropWhile Char.isDigit with
  | [] => if ip = [] then none else some (digitsVal ip)
  | '.' :: fr =>
      if (ip ≠ [] ∨ fr ≠ []) ∧ fr.all Char.isDigit then
        some ((digitsVal ip : ℚ) + (digitsVal fr : ℚ) / (10 : ℚ) ^ fr.length)
      else none
  | _ => none

/-- Python `float(s)` on an (already trimmed) plain decimal literal with optional sign. -/
def pyFloat (s : String) : Option ℚ :=
  match s.toList with
  | '-' :: rest => (pyFloatCore rest).map (fun q => -q)
  | '+' :: rest => pyFloatCore rest
  | l => pyFloatCore l

/-- Python `int(s)` on an (already trimmed) plain decimal integer literal with optional
sign; `none` models the `ValueError` raised on any other content. -/
def pyInt (s : String) : Option ℤ :=
  match s.toList with
  | '-' :: rest => if rest ≠ [] ∧ rest.all Char.isDigit then some (-(digitsVal rest : ℤ)) else none
  | '+' :: rest => if rest ≠ [] ∧ rest.all Char.isDigit then some (digitsVal rest : ℤ) else none
  | l => if l ≠ [] ∧ l.all Char.isDigit then some (digitsVal l : ℤ) else none

/-- Python `template.format(arg)` for a template containing a single `{}` hole
(replaces the first occurrence). -/
def formatOneL (arg : List Char) : List Char → List Char
  | [] => []
  | '{' :: '}' :: rest => arg ++ rest
  | c :: rest => c :: formatOneL arg rest

/-- Python `template.format(arg)` on strings. -/
def formatOne (template arg : String) : String :=
  String.mk (formatOneL arg.toList template.toList)

/-- Python `''.join(list(filter(str.isdigit, s)))`: the digit characters of `s` in order. -/
def extractDigits (s : String) : String :=
  String.mk (s.toList.filter Char.isDigit)

/-! ### Module-level constants of `psu.py` -/

def PSU_E1031_STAT_PATH : String := "/sys/devices/platform/e1031.smc/"

def PSU_NAME_LIST : List String := ["PSU-R", "PSU-L"]

/-- One row of the `PSU_I2C_MAPPING` dictionary. -/
structure I2CEntry where
  num : ℕ
  addr : String
  eeprom_addr : String
deriving DecidableEq

/-- The `PSU_I2C_MAPPING` dictionary, keyed by the (valid) PSU index. -/
def PSU_I2C_MAPPING : Fin 2 → I2CEntry
  | 0 => ⟨13, "5b", "53"⟩
  | 1 => ⟨12, "5a", "52"⟩

/-- `HWMON_PATH.format(num, addr)` where
`HWMON_PATH = "/sys/bus/i2c/devices/i2c-{0}/{0}-00{1}/hwmon"`, resolved by concatenation. -/
def hwmonPathFor (num : ℕ) (addr : String) : String :=
  "/sys/bus/i2c/devices/i2c-" ++ toString num ++ "/" ++ toString num ++ "-00" ++ addr ++ "/hwmon"

/-- `PSU_EEPROM_PATH.format(num, eeprom_addr)` where
`PSU_EEPROM_PATH = "/sys/bus/i2c/devices/{}-00{}/eeprom"`, resolved by concatenation. -/
def eepromPathFor (num : ℕ) (eeprom_addr : String) : String :=
  "/sys/bus/i2c/devices/" ++ toString num ++ "-00" ++ eeprom_addr ++ "/eeprom"

/-- The `PSU_EEPROM_FORMAT` field list: (field name, type code, byte length). -/
def PSU_EEPROM_FORMAT : List (String × Char × ℕ) :=
  [("Serial Number", 's', 16), ("burn", 'x', 16), ("Model", 's', 16), ("Part Number", 's', 16)]

def PSU_EEPROM_START_OFFSET : ℕ := 48

/-- Modelled from the spec: the `STATUS_LED_COLOR_OFF` constant inherited from the
platform base class (external collaborator): the fixed "off" state. -/
def STATUS_LED_COLOR_OFF : String := "off"

/-! ### The decoded EEPROM object (external collaborator, modelled from the spec) -/

/-- The decoded view a `DeviceEEPROM` object exposes. -/
structure DeviceEEPROM where
  serial_number : String
  model_str : String
deriving DecidableEq

/-- Extract the named string field from raw bytes laid out per a format list. -/
def eepromField (bytes : List Char) (field : String) : List (String × Char × ℕ) → String
  | [] => ""
  | (nm, tc, len) :: rest =>
      if nm = field ∧ tc = 's' then String.mk (bytes.take len)
      else eepromField (bytes.drop len) field rest

/-- Modelled from the spec: the external EEPROM decoder `DeviceEEPROM` (module
`sonic_platform.eeprom`, not present in the sources).  Per the spec it is
"constructed from (path, field-format list, start offset)" and "exposes decoded
`model` and `serialNumber` strings" where the "format list is an ordered sequence of
(fieldName, typeCode, byteLength) tuples" read starting at the byte offset. -/
def DeviceEEPROM.decode (fs : FS) (path : String) (fmt : List (String × Char × ℕ))
    (off : ℕ) : DeviceEEPROM :=
  let bytes := ((fs.content path).getD "").toList.drop off
  { serial_number := eepromField bytes "Serial Number" fmt
    model_str := eepromField bytes "Model" fmt }

/-! ### The Psu object -/

/-- The attributes a `Psu` object carries after `__init__` (the `_fan_list` of external
`Fan` objects is omitted: no method under verification touches it).  The `_eeprom`
attribute assigned by `get_model`/`get_serial` is `none` while still unset. -/
structure Psu where
  index : Fin 2
  psu_presence : String
  psu_oper_status : String
  i2c_num : ℕ
  i2c_addr : String
  hwmon_path : String
  eeprom_addr : String
  _eeprom : Option DeviceEEPROM
deriving DecidableEq

/-- `Psu.__init__(psu_index)` for a valid index (the source indexes
`PSU_I2C_MAPPING[psu_index]`, which is only defined for 0 and 1). -/
def Psu.init (psu_index : Fin 2) : Psu :=
  { index := psu_index
    psu_presence := "psu{}_prs"
    psu_oper_status := "psu{}_status"
    i2c_num := (PSU_I2C_MAPPING psu_index).num
    i2c_addr := (PSU_I2C_MAPPING psu_index).addr
    hwmon_path := hwmonPathFor (PSU_I2C_MAPPING psu_index).num (PSU_I2C_MAPPING psu_index).addr
    eeprom_addr := eepromPathFor (PSU_I2C_MAPPING psu_index).num
      (PSU_I2C_MAPPING psu_index).eeprom_addr
    _eeprom := none }

/-- Inner loop of `Psu._search_file_by_contain`: scan the file names of one walk entry. -/
def searchFiles (fs : FS) (search_str file_start dirpath : String) :
    List String → Option String
  | [] => none
  | name :: rest =>
      let file_path := pathJoin dirpath name
      if startswith name file_start && pyInStr search_str (read_txt_file fs file_path) then
        some file_path
      else searchFiles fs search_str file_start dirpath rest

/-- Outer loop of `Psu._search_file_by_contain`: scan the walk entries in order. -/
def searchWalk (fs : FS) (search_str file_start : String) :
    List (String × List String) → Option String
  | [] => none
  | entry :: rest =>
      match searchFiles fs search_str file_start entry.1 entry.2 with
      | some p => some p
      | none => searchWalk fs search_str file_start rest

/-- `Psu._search_file_by_contain(directory, search_str, file_start)`. -/
def _search_file_by_contain (fs : FS) (directory search_str file_start : String) :
    Option String :=
  searchWalk fs search_str file_start (fs.walk directory)

/-- `Psu.get_voltage`: `.error ()` models the uncaught `ValueError` from `float`. -/
def get_voltage (p : Psu) (fs : FS) : Except Unit ℚ :=
  let voltage_name := "in{}_input"
  let voltage_label := "vout1"
  match _search_file_by_contain fs p.hwmon_path voltage_label "in" with
  | none => .ok 0
  | some vout_label_path =>
      let dir_name := dirname vout_label_path
      let base_name := basename vout_label_path
      let in_num := extractDigits base_name
      let vout_path := pathJoin dir_name (formatOne voltage_name in_num)
      let vout_val := read_txt_file fs vout_path
      match pyFloat vout_val with
      | some v => .ok (v / 1000)
      | none => .error ()

/-- `Psu.get_current`. -/
def get_current (p : Psu) (fs : FS) : Except Unit ℚ :=
  let current_name := "curr{}_input"
  let current_label := "iout1"
  match _search_file_by_contain fs p.hwmon_path current_label "cur" with
  | none => .ok 0
  | some curr_label_path =>
      let dir_name := dirname curr_label_path
      let base_name := basename curr_label_path
      let cur_num := extractDigits base_name
      let cur_path := pathJoin dir_name (formatOne current_name cur_num)
      let cur_val := read_txt_file fs cur_path
      match pyFloat cur_val with
      | some v => .ok (v / 1000)
      | none => .error ()

/-- `Psu.get_power`. -/
def get_power (p : Psu) (fs : FS) : Except Unit ℚ :=
  let current_name := "power{}_input"
  let current_label := "pout1"
  match _search_file_by_contain fs p.hwmon_path current_label "power" with
  | none => .ok 0
  | some pw_label_path =>
      let dir_name := dirname pw_label_path
      let base_name := basename pw_label_path
      let pw_num := extractDigits base_name
      let pw_path := pathJoin dir_name (formatOne current_name pw_num)
      let pw_val := read_txt_file fs pw_path
      match pyFloat pw_val with
      | some v => .ok (v / 1000000)
      | none => .error ()

/-- `Psu.get_temperature`: returns `.ok none` (Python `None`) when no label file matches. -/
def get_temperature (p : Psu) (fs : FS) : Except Unit (Option ℚ) :=
  let temperature_name := "temp{}_input"
  let temperature_label := "vout1"
  match _search_file_by_contain fs p.hwmon_path temperature_label "in" with
  | none => .ok none
  | some vout_label_path =>
      let dir_name := dirname vout_label_path
      let base_name := basename vout_label_path
      let in_num := extractDigits base_name
      let temp_path := pathJoin dir_name (formatOne temperature_name in_num)
      let vout_val := read_txt_file fs temp_path
      match pyFloat vout_val with
      | some v => .ok (some (v / 1000))
      | none => .error ()

/-- `Psu.get_temperature_high_threshold`. -/
def get_temperature_high_threshold (p : Psu) (fs : FS) : Except Unit (Option ℚ) :=
  let temperature_name := "temp{}_max"
  let temperature_label := "vout1"
  match _search_file_by_contain fs p.hwmon_path temperature_label "in" with
  | none => .ok none
  | some vout_label_path =>
      let dir_name := dirname vout_label_path
      let base_name := basename vout_label_path
      let in_num := extractDigits base_name
      let temp_path := pathJoin dir_name (formatOne temperature_name in_num)
      let vout_val := read_txt_file fs temp_path
      match pyFloat vout_val with
      | some v => .ok (some (v / 1000))
      | none => .error ()

/-- `Psu.get_voltage_high_threshold`: reads `in{N}_crit` only if it exists, otherwise
keeps the hardcoded default 12.6. -/
def get_voltage_high_threshold (p : Psu) (fs : FS) : Except Unit ℚ :=
  let voltage_name := "in{}_crit"
  let voltage_label := "vout1"
  match _search_file_by_contain fs p.hwmon_path voltage_label "in" with
  | none => .ok 12.6
  | some vout_label_path =>
      let dir_name := dirname vout_label_path
      let base_name := basename vout_label_path
      let in_num := extractDigits base_name
      let vout_path := pathJoin dir_name (formatOne voltage_name in_num)
      if (fs.content vout_path).isSome then
        match pyFloat (read_txt_file fs vout_path) with
        | some v => .ok (v / 1000)
        | none => .error ()
      else .ok 12.6

/-- `Psu.get_voltage_low_threshold`: reads `in{N}_lcrit` only if it exists, otherwise
keeps the hardcoded default 11.4. -/
def get_voltage_low_threshold (p : Psu) (fs : FS) : Except Unit ℚ :=
  let voltage_name := "in{}_lcrit"
  let voltage_label := "vout1"
  match _search_file_by_contain fs p.hwmon_path voltage_label "in" with
  | none => .ok 11.4
  | some vout_label_path =>
      let dir_name := dirname vout_label_path
      let base_name := basename vout_label_path
      let in_num := extractDigits base_name
      let vout_path := pathJoin dir_name (formatOne voltage_name in_num)
      if (fs.content vout_path).isSome then
        match pyFloat (read_txt_file fs vout_path) with
        | some v => .ok (v / 1000)
        | none => .error ()
      else .ok 11.4

/-- `Psu.get_name`. -/
def get_name (p : Psu) : String :=
  PSU_NAME_LIST.get ⟨p.index.1, p.index.isLt⟩

/-- `Psu.get_presence`: `read_txt_file(...) or 0` makes empty/missing content parse as 0;
`.error ()` models the uncaught `ValueError` from `int` on other non-numeric content. -/
def get_presence (p : Psu) (fs : FS) : Except Unit Bool :=
  let psu_location : List String := ["R", "L"]
  let presences_status := read_txt_file fs
    (PSU_E1031_STAT_PATH ++ formatOne p.psu_presence (psu_location.get ⟨p.index.1, p.index.isLt⟩))
  if presences_status = "" then .ok (decide ((0 : ℤ) = 1))
  else
    match pyInt presences_status with
    | some n => .ok (decide (n = 1))
    | none => .error ()

/-- `Psu.get_status`. -/
def get_status (p : Psu) (fs : FS) : Except Unit Bool :=
  let psu_location : List String := ["R", "L"]
  let power_status := read_txt_file fs
    (PSU_E1031_STAT_PATH ++ formatOne p.psu_oper_status (psu_location.get ⟨p.index.1, p.index.isLt⟩))
  if power_status = "" then .ok (decide ((0 : ℤ) = 1))
  else
    match pyInt power_status with
    | some n => .ok (decide (n = 1))
    | none => .error ()

/-- `Psu.get_powergood_status`: `return self.get_status()`. -/
def get_powergood_status (p : Psu) (fs : FS) : Except Unit Bool :=
  get_status p fs

/-- `Psu.get_model`: assigns `self._eeprom` and returns the decoded model string.
State-passing form: the pair is (object after the call, returned value). -/
def get_model (p : Psu) (fs : FS) : Psu × String :=
  let e := DeviceEEPROM.decode fs p.eeprom_addr PSU_EEPROM_FORMAT PSU_EEPROM_START_OFFSET
  ({ p with _eeprom := some e }, e.model_str)

/-- `Psu.get_serial`: assigns `self._eeprom` and returns the decoded serial number. -/
def get_serial (p : Psu) (fs : FS) : Psu × String :=
  let e := DeviceEEPROM.decode fs p.eeprom_addr PSU_EEPROM_FORMAT PSU_EEPROM_START_OFFSET
  ({ p with _eeprom := some e }, e.serial_number)

/-- `Psu.set_status_led`: hardware not supported, always `False`. -/
def set_status_led (color : String) : Bool :=
  false

/-- `Psu.get_status_led`: hardware not supported, always the "off" constant. -/
def get_status_led : String :=
  STATUS_LED_COLOR_OFF

/-- `Psu.get_position_in_parent`. -/
def get_position_in_parent : ℤ :=
  -1

/-- `Psu.is_replaceable`. -/
def is_replaceable : Bool :=
  true

/-- `Psu.get_maximum_supplied_power`. -/
def get_maximum_supplied_power : ℚ :=
  200.0

/-! ### Spec-side characterisation of the locator (claim C1) -/

/-- The locator's matching criterion on one enumerated file `(dirpath, base name)`:
the base name starts with `file_start` and the file's text content contains
`search_str`. -/
def fileMatches (fs : FS) (search_str file_start : String) (e : String × String) : Bool :=
  startswith e.2 file_start && pyInStr search_str (read_txt_file fs (pathJoin e.1 e.2))

/-- The flattened `(dirpath, base name)` enumeration that `os.walk` yields, in order. -/
def walkEntries (fs : FS) (directory : String) : List (String × String) :=
  (fs.walk directory).flatMap (fun pr => pr.2.map (fun n => (pr.1, n)))

theorem searchFiles_eq (fs : FS) (s f d : String) (names : List String) :
    searchFiles fs s f d names
      = ((names.map (fun n => (d, n))).find? (fileMatches fs s f)).map
          (fun e => pathJoin e.1 e.2) := by
  induction names with
  | nil => rfl
  | cons nm rest ih =>
      have hstep : searchFiles fs s f d (nm :: rest)
          = if fileMatches fs s f (d, nm) = true then some (pathJoin d nm)
            else searchFiles fs s f d rest := rfl
      rw [hstep]
      cases hC : fileMatches fs s f (d, nm) with
      | true => simp [hC]
      | false => simp [hC, ih]

theorem searchWalk_eq (fs : FS) (s f : String) (L : List (String × List String)) :
    searchWalk fs s f L
      = ((L.flatMap (fun pr => pr.2.map (fun n => (pr.1, n)))).find? (fileMatches fs s f)).map
          (fun e => pathJoin e.1 e.2) := by
  induction L with
  | nil => rfl
  | cons e rest ih =>
      have hstep : searchWalk fs s f (e :: rest)
          = match searchFiles fs s f e.1 e.2 with
            | some q => some q
            | none => searchWalk fs s f rest := rfl
      rw [hstep, searchFiles_eq, ih]
      simp only [List.flatMap_cons, List.find?_append]
      cases hf : (e.2.map (fun n => (e.1, n))).find? (fileMatches fs s f) with
      | none => simp
      | some x => simp

/-! ### Shared concrete filesystem states for witnesses -/

/-- The hwmon directory of PSU 0. -/
def hw0 : String := (Psu.init 0).hwmon_path

/-- A filesystem with no directories and no files at all. -/
def fsEmpty : FS :=
  { walk := fun _ => [], content := fun _ => none }

/-! ### The claims -/

/-- Claim C1: for every directory, label substring, and file-name prefix, the locator
`_search_file_by_contain` returns the path of the first enumerated file whose base name
starts with the prefix and whose full text content contains the label substring; and
when no such file exists, or the directory is absent (so `os.walk` enumerates nothing),
it returns the explicit not-found value `none` rather than raising an error. -/
theorem C1_locator_first_match (fs : FS) (directory search_str file_start : String) :
    _search_file_by_contain fs directory search_str file_start
      = ((walkEntries fs directory).find? (fileMatches fs search_str file_start)).map
          (fun e => pathJoin e.1 e.2)
    ∧ (fs.walk directory = [] →
        _search_file_by_contain fs directory search_str file_start = none) := by
  refine ⟨searchWalk_eq fs search_str file_start (fs.walk directory), fun h => ?_⟩
  unfold _search_file_by_contain
  rw [h]
  rfl

/-- Witness for C1: on a filesystem where the directory is absent (the walk enumerates
nothing) the locator returns `none`. -/
theorem C1_locator_first_match_w :
    _search_file_by_contain fsEmpty "/no/such/dir" "vout1" "in" = none :=
  (C1_locator_first_match fsEmpty "/no/such/dir" "vout1" "in").2 rfl

/-- Claim C9: for every valid index, `get_name` returns the corresponding element of the
fixed two-element ordered list `PSU_NAME_LIST`: "PSU-R" for index 0 and "PSU-L" for
index 1, independent of any file state (`get_name` takes no filesystem argument). -/
theorem C9_get_name_fixed :
    get_name (Psu.init 0) = "PSU-R" ∧ get_name (Psu.init 1) = "PSU-L"
      ∧ ∀ i : Fin 2, get_name (Psu.init i) = PSU_NAME_LIST.get ⟨i.1, i.isLt⟩ :=
  ⟨by decide, by decide, fun _ => rfl⟩

/-- Claim C10: for every PSU object and every filesystem state, `get_powergood_status`
returns exactly the same result as `get_status` (the source delegates directly). -/
theorem C10_powergood_eq_status (p : Psu) (fs : FS) :
    get_powergood_status p fs = get_status p fs :=
  rfl

/-- Claim C2: whenever the locator finds a file starting with "in" whose content contains
"vout1", `get_voltage` extracts the digits of that file's base name, reads the sibling
file `in{N}_input`, and returns its parsed numeric content divided by 1000. -/
theorem C2_get_voltage_scaled (i : Fin 2) (fs : FS) (lp : String) (v : ℚ)
    (h1 : _search_file_by_contain fs (Psu.init i).hwmon_path "vout1" "in" = some lp)
    (h2 : pyFloat (read_txt_file fs
        (pathJoin (dirname lp) (formatOne "in{}_input" (extractDigits (basename lp)))))
      = some v) :
    get_voltage (Psu.init i) fs = .ok (v / 1000) := by
  unfold get_voltage
  dsimp only
  rw [h1]
  dsimp only
  rw [h2]

/-- A filesystem whose hwmon directory of PSU 0 holds `in3_label` containing "vout1" and
`in3_input` containing "12500". -/
def fsC2 : FS :=
  { walk := fun d => if d = hw0 then [(hw0, ["in3_label", "in3_input"])] else []
    content := fun q =>
      if q = hw0 ++ "/in3_label" then some "vout1"
      else if q = hw0 ++ "/in3_input" then some "12500"
      else none }

/-- Witness for C2: with `in3_label` containing "vout1" and `in3_input` containing
"12500", `get_voltage` returns 12.5. -/
theorem C2_get_voltage_scaled_w :
    get_voltage (Psu.init 0) fsC2 = .ok (12.5 : ℚ) := by
  have h := C2_get_voltage_scaled 0 fsC2 (hw0 ++ "/in3_label") 12500 (by decide) (by decide)
  exact h.trans (by norm_num)

/-- Claim C3: whenever the locator finds a file starting with "power" whose content
contains "pout1", `get_power` reads the derived `power{N}_input` sibling and returns its
parsed numeric content divided by 1,000,000. -/
theorem C3_get_power_scaled (i : Fin 2) (fs : FS) (lp : String) (v : ℚ)
    (h1 : _search_file_by_contain fs (Psu.init i).hwmon_path "pout1" "power" = some lp)
    (h2 : pyFloat (read_txt_file fs
        (pathJoin (dirname lp) (formatOne "power{}_input" (extractDigits (basename lp)))))
      = some v) :
    get_power (Psu.init i) fs = .ok (v / 1000000) := by
  unfold get_power
  dsimp only
  rw [h1]
  dsimp only
  rw [h2]

/-- A filesystem whose hwmon directory of PSU 0 holds `power2_label` containing "pout1"
and `power2_input` containing "250500000". -/
def fsC3 : FS :=
  { walk := fun d => if d = hw0 then [(hw0, ["power2_label", "power2_input"])] else []
    content := fun q =>
      if q = hw0 ++ "/power2_label" then some "pout1"
      else if q = hw0 ++ "/power2_input" then some "250500000"
      else none }

/-- Witness for C3: with `power2_label` containing "pout1" and `power2_input` containing
"250500000", `get_power` returns 250.5. -/
theorem C3_get_power_scaled_w :
    get_power (Psu.init 0) fsC3 = .ok (250.5 : ℚ) := by
  have h := C3_get_power_scaled 0 fsC3 (hw0 ++ "/power2_label") 250500000 (by decide) (by decide)
  exact h.trans (by norm_num)

/-- Claim C4: whenever the vout1 label file is matched but the derived threshold file does
not exist on disk, `get_voltage_high_threshold` returns the hardcoded default 12.6 and
`get_voltage_low_threshold` returns 11.4 (these getters check existence before reading). -/
theorem C4_threshold_defaults (i : Fin 2) (fs : FS) (lp : String)
    (h1 : _search_file_by_contain fs (Psu.init i).hwmon_path "vout1" "in" = some lp)
    (h2 : fs.content
        (pathJoin (dirname lp) (formatOne "in{}_crit" (extractDigits (basename lp)))) = none)
    (h3 : fs.content
        (pathJoin (dirname lp) (formatOne "in{}_lcrit" (extractDigits (basename lp)))) = none) :
    get_voltage_high_threshold (Psu.init i) fs = .ok (12.6 : ℚ)
      ∧ get_voltage_low_threshold (Psu.init i) fs = .ok (11.4 : ℚ) := by
  constructor
  · unfold get_voltage_high_threshold
    dsimp only
    rw [h1]
    dsimp only
    rw [h2]
    rfl
  · unfold get_voltage_low_threshold
    dsimp only
    rw [h1]
    dsimp only
    rw [h3]
    rfl

/-- A filesystem whose hwmon directory of PSU 0 holds `in0_input` containing "0" and
`in0_label` containing "vout1", with `in0_crit` and `in0_lcrit` absent. -/
def fsC4 : FS :=
  { walk := fun d => if d = hw0 then [(hw0, ["in0_input", "in0_label"])] else []
    content := fun q =>
      if q = hw0 ++ "/in0_input" then some "0"
      else if q = hw0 ++ "/in0_label" then some "vout1"
      else none }

/-- Witness for C4: with `in0_input`="0", `in0_label`="vout1", and `in0_crit` absent,
`get_voltage` returns 0.0 while `get_voltage_high_threshold` returns the default 12.6
(and `get_voltage_low_threshold` returns 11.4). -/
theorem C4_threshold_defaults_w :
    get_voltage (Psu.init 0) fsC4 = .ok 0
      ∧ get_voltage_high_threshold (Psu.init 0) fsC4 = .ok (12.6 : ℚ)
      ∧ get_voltage_low_threshold (Psu.init 0) fsC4 = .ok (11.4 : ℚ) := by
  have hthr := C4_threshold_defaults 0 fsC4 (hw0 ++ "/in0_label") (by decide) (by decide)
    (by decide)
  refine ⟨?_, hthr.1, hthr.2⟩
  have h1 : _search_file_by_contain fsC4 (Psu.init 0).hwmon_path "vout1" "in"
      = some (hw0 ++ "/in0_label") := by decide
  have h2 : pyFloat (read_txt_file fsC4 (pathJoin (dirname (hw0 ++ "/in0_label"))
      (formatOne "in{}_input" (extractDigits (basename (hw0 ++ "/in0_label"))))))
      = some 0 := by decide
  unfold get_voltage
  dsimp only
  rw [h1]
  dsimp only
  rw [h2]
  norm_num

/-- Claim C5: whenever the locator finds no matching label file for the respective metric,
`get_voltage`, `get_current`, and `get_power` each return 0.0, while `get_temperature`
returns the explicit absence sentinel (Python `None`), not 0.0. -/
theorem C5_no_match_defaults (i : Fin 2) (fs : FS)
    (h1 : _search_file_by_contain fs (Psu.init i).hwmon_path "vout1" "in" = none)
    (h2 : _search_file_by_contain fs (Psu.init i).hwmon_path "iout1" "cur" = none)
    (h3 : _search_file_by_contain fs (Psu.init i).hwmon_path "pout1" "power" = none) :
    get_voltage (Psu.init i) fs = .ok 0
      ∧ get_current (Psu.init i) fs = .ok 0
      ∧ get_power (Psu.init i) fs = .ok 0
      ∧ get_temperature (Psu.init i) fs = .ok none := by
  refine ⟨?_, ?_, ?_, ?_⟩
  · unfold get_voltage; dsimp only; rw [h1]
  · unfold get_current; dsimp only; rw [h2]
  · unfold get_power; dsimp only; rw [h3]
  · unfold get_temperature; dsimp only; rw [h1]

/-- Witness for C5: on an empty filesystem the three electrical metrics read 0.0 and the
temperature reads `none`. -/
theorem C5_no_match_defaults_w :
    get_voltage (Psu.init 0) fsEmpty = .ok 0
      ∧ get_current (Psu.init 0) fsEmpty = .ok 0
      ∧ get_power (Psu.init 0) fsEmpty = .ok 0
      ∧ get_temperature (Psu.init 0) fsEmpty = .ok none :=
  C5_no_match_defaults 0 fsEmpty rfl rfl rfl

/-! ### Presence (claim C6) -/

/-- The fixed presence file of PSU slot `i`:
`PSU_E1031_STAT_PATH + "psu{}_prs".format(["R", "L"][i])`. -/
def presencePath (i : Fin 2) : String :=
  PSU_E1031_STAT_PATH ++ formatOne "psu{}_prs" (["R", "L"].get ⟨i.1, i.isLt⟩)

/-- The branch structure shared by `get_presence` and `get_status`, as a function of the
text read from the fixed status file. -/
def statusOfText (s : String) : Except Unit Bool :=
  if s = "" then .ok (decide ((0 : ℤ) = 1))
  else
    match pyInt s with
    | some n => .ok (decide (n = 1))
    | none => .error ()

theorem statusOfText_ok_true (s : String) :
    statusOfText s = .ok true ↔ pyInt s = some 1 := by
  unfold statusOfText
  by_cases h : s = ""
  · subst h
    simp only [if_pos rfl]
    constructor
    · intro hc
      exact absurd (Except.ok.inj hc) (by decide)
    · intro hc
      exact absurd hc (by decide)
  · rw [if_neg h]
    cases hp : pyInt s with
    | none =>
        constructor
        · intro hc; exact Except.noConfusion hc
        · intro hc; exact Option.noConfusion hc
    | some n =>
        constructor
        · intro hc
          have hn : decide (n = 1) = true := Except.ok.inj hc
          rw [of_decide_eq_true hn]
        · intro hc
          have hn : n = 1 := Option.some.inj hc
          rw [hn]
          rfl

theorem get_presence_eq_statusOfText (i : Fin 2) (fs : FS) :
    get_presence (Psu.init i) fs = statusOfText (read_txt_file fs (presencePath i)) :=
  rfl

/-- Claim C6: for each valid index, `get_presence` returns `True` if and only if the fixed
per-slot presence file's content parses to the integer 1; when the file is absent the
content defaults to 0 and `get_presence` returns `False` (likewise content "0" yields
`False`, and content "1" yields `True`). -/
theorem C6_presence (i : Fin 2) (fs : FS) :
    (get_presence (Psu.init i) fs = .ok true
        ↔ pyInt (read_txt_file fs (presencePath i)) = some 1)
      ∧ (fs.content (presencePath i) = none → get_presence (Psu.init i) fs = .ok false)
      ∧ (fs.content (presencePath i) = some "0" → get_presence (Psu.init i) fs = .ok false)
      ∧ (fs.content (presencePath i) = some "1" → get_presence (Psu.init i) fs = .ok true) := by
  rw [get_presence_eq_statusOfText]
  refine ⟨statusOfText_ok_true _, fun h => ?_, fun h => ?_, fun h => ?_⟩
  · unfold read_txt_file
    rw [h]
    rfl
  · unfold read_txt_file
    rw [h]
    rfl
  · unfold read_txt_file
    rw [h]
    rfl

/-- A filesystem holding only the presence file of PSU 0, with content "1". -/
def fsPres1 : FS :=
  { walk := fun _ => []
    content := fun q =>
      if q = "/sys/devices/platform/e1031.smc/psuR_prs" then some "1" else none }

/-- Witness for C6: an absent presence file yields `False` and content "1" yields `True`. -/
theorem C6_presence_w :
    get_presence (Psu.init 0) fsEmpty = .ok false
      ∧ get_presence (Psu.init 0) fsPres1 = .ok true :=
  ⟨(C6_presence 0 fsEmpty).2.1 rfl, (C6_presence 0 fsPres1).2.2.2 (by decide)⟩

/-! ### Malformed numeric content (claim C7) -/

/-- A filesystem where `in3_label` matches "vout1" but the derived `in3_input` holds
content that does not parse as a number. -/
def fsC7 : FS :=
  { walk := fun d => if d = hw0 then [(hw0, ["in3_label", "in3_input"])] else []
    content := fun q =>
      if q = hw0 ++ "/in3_label" then some "vout1"
      else if q = hw0 ++ "/in3_input" then some "not a number"
      else none }

/-- Claim C7: there exists a filesystem state — a label file matching "vout1" present but
the derived companion input file's content not parseable as a number — for which
`get_voltage` raises an unhandled error (modelled by `.error ()`) rather than returning a
default value. -/
theorem C7_malformed_raises :
    _search_file_by_contain fsC7 (Psu.init 0).hwmon_path "vout1" "in"
        = some (hw0 ++ "/in3_label")
      ∧ get_voltage (Psu.init 0) fsC7 = .error () := by
  decide

/-! ### Statelessness of the accessors (claim C8) -/

/-- State-passing form of `get_voltage`: the method body assigns no attribute of `self`,
so the object is returned unchanged alongside the result. -/
def get_voltage_call (p : Psu) (fs : FS) : Psu × Except Unit ℚ :=
  (p, get_voltage p fs)

/-- State-passing form of `get_current` (no attribute assignment in the body). -/
def get_current_call (p : Psu) (fs : FS) : Psu × Except Unit ℚ :=
  (p, get_current p fs)

/-- State-passing form of `get_power` (no attribute assignment in the body). -/
def get_power_call (p : Psu) (fs : FS) : Psu × Except Unit ℚ :=
  (p, get_power p fs)

/-- State-passing form of `get_temperature` (no attribute assignment in the body). -/
def get_temperature_call (p : Psu) (fs : FS) : Psu × Except Unit (Option ℚ) :=
  (p, get_temperature p fs)

/-- State-passing form of `get_temperature_high_threshold` (no attribute assignment). -/
def get_temperature_high_threshold_call (p : Psu) (fs : FS) : Psu × Except Unit (Option ℚ) :=
  (p, get_temperature_high_threshold p fs)

/-- State-passing form of `get_voltage_high_threshold` (no attribute assignment). -/
def get_voltage_high_threshold_call (p : Psu) (fs : FS) : Psu × Except Unit ℚ :=
  (p, get_voltage_high_threshold p fs)

/-- State-passing form of `get_voltage_low_threshold` (no attribute assignment). -/
def get_voltage_low_threshold_call (p : Psu) (fs : FS) : Psu × Except Unit ℚ :=
  (p, get_voltage_low_threshold p fs)

/-- State-passing form of `get_presence` (no attribute assignment in the body). -/
def get_presence_call (p : Psu) (fs : FS) : Psu × Except Unit Bool :=
  (p, get_presence p fs)

/-- State-passing form of `get_status` (no attribute assignment in the body). -/
def get_status_call (p : Psu) (fs : FS) : Psu × Except Unit Bool :=
  (p, get_status p fs)

/-- State-passing form of `get_powergood_status` (no attribute assignment in the body). -/
def get_powergood_status_call (p : Psu) (fs : FS) : Psu × Except Unit Bool :=
  (p, get_powergood_status p fs)

/-- State-passing form of `get_name` (no attribute assignment in the body). -/
def get_name_call (p : Psu) : Psu × String :=
  (p, get_name p)

/-- State-passing form of `set_status_led` (no attribute assignment in the body). -/
def set_status_led_call (p : Psu) (color : String) : Psu × Bool :=
  (p, set_status_led color)

/-- State-passing form of `get_status_led` (no attribute assignment in the body). -/
def get_status_led_call (p : Psu) : Psu × String :=
  (p, get_status_led)

/-- Claim C8 counterexample: calling `get_model` on a freshly constructed PSU object does
not leave every field unchanged — it assigns the `_eeprom` attribute. -/
theorem C8_stateless_cex :
    (get_model (Psu.init 0) fsEmpty).1 ≠ Psu.init 0 := by
  decide

/-- Claim C8 (amended): every accessor except `get_model` and `get_serial` leaves every
field of the PSU object unchanged; `get_model` and `get_serial` modify only the `_eeprom`
field, overwriting it with the freshly decoded EEPROM. -/
theorem C8_stateless_amended (p : Psu) (fs : FS) (color : String) :
    (get_voltage_call p fs).1 = p
      ∧ (get_current_call p fs).1 = p
      ∧ (get_power_call p fs).1 = p
      ∧ (get_temperature_call p fs).1 = p
      ∧ (get_temperature_high_threshold_call p fs).1 = p
      ∧ (get_voltage_high_threshold_call p fs).1 = p
      ∧ (get_voltage_low_threshold_call p fs).1 = p
      ∧ (get_presence_call p fs).1 = p
      ∧ (get_status_call p fs).1 = p
      ∧ (get_powergood_status_call p fs).1 = p
      ∧ (get_name_call p).1 = p
      ∧ (set_status_led_call p color).1 = p
      ∧ (get_status_led_call p).1 = p
      ∧ (get_model p fs).1
          = { p with _eeprom := some (DeviceEEPROM.decode fs p.eeprom_addr
              PSU_EEPROM_FORMAT PSU_EEPROM_START_OFFSET) }
      ∧ (get_serial p fs).1
          = { p with _eeprom := some (DeviceEEPROM.decode fs p.eeprom_addr
              PSU_EEPROM_FORMAT PSU_EEPROM_START_OFFSET) } :=
  ⟨rfl, rfl, rfl, rfl, rfl, rfl, rfl, rfl, rfl, rfl, rfl, rfl, rfl, rfl, rfl⟩

end E1031
